import Mathlib

/-
Shallow embedding of tools/e133/DeviceManager.cpp (the E1.33 device
manager of the ola repository).  The per-device registry, the designated
controller election, the teardown path and the acknowledgement path are
translated directly from the source.  External collaborators that are not
part of the source tree (the TCP connector, the select server, the health
checked connection internals and the message queue internals) are modelled
as an explicit effect trace and as oracle parameters, following the
interface description of the specification.
-/

namespace Ola

/-- Transport kinds distinguished by the transport header of the root
protocol layer. -/
inductive TransportKind
  | tcp
  | udp
deriving DecidableEq

/-- Routing metadata extracted by the outermost protocol layer, mirroring
the TransportHeader values consumed by DeviceManager. -/
structure TransportHeader where
  transport : TransportKind
  srcIp : Nat
deriving DecidableEq

/-- Device protocol envelope metadata, mirroring the E133Header fields
used by DeviceManager (sequence number and target endpoint). -/
structure E133Header where
  sequence : Nat
  endpoint : Nat
deriving DecidableEq

/-- Acknowledgement frame built by EndpointRequest: a status PDU addressed
with the sequence number and endpoint of the originating E133 header.  The
byte level encoding is performed by the external frame builder and is out
of scope, so the frame is modelled by the two routing fields. -/
structure AckFrame where
  sequence : Nat
  endpoint : Nat
deriving DecidableEq

/-- Modelled from the spec: the E133HealthCheckedConnection internals are
not part of the source tree; on the DeviceManager side the monitor is an
owned object whose HeartbeatReceived entry point is invoked on every
inbound frame of a designated session.  The model records how many
received heartbeats were forwarded to it. -/
structure HealthCheckedConnection where
  heartbeats : Nat
deriving DecidableEq

/-- Modelled from the spec: the MessageQueue internals are not part of the
source tree; the spec describes it as a FIFO of fully built outbound
frames, so it is modelled as the list of frames submitted via
SendMessage, in submission order. -/
structure MessageQueue where
  messages : List AckFrame
deriving DecidableEq

/-- Per-device state, translated from class DeviceState: four owned
optional sub-objects and the designated controller flag.  Sockets are
identified by a numeric descriptor. -/
structure DeviceState where
  socket : Option Nat
  message_queue : Option MessageQueue
  health_checked_connection : Option HealthCheckedConnection
  in_transport : Bool
  am_designated_controller : Bool
deriving DecidableEq

/-- The DeviceState constructor: every pointer NULL, the flag false. -/
def DeviceState.init : DeviceState :=
  { socket := none
    message_queue := none
    health_checked_connection := none
    in_transport := false
    am_designated_controller := false }

/-- Peer address of a freshly connected socket as returned by GetPeer:
either an IPv4 host or some other address family. -/
inductive PeerAddress
  | v4 (host : Nat)
  | other
deriving DecidableEq

/-- Observable interactions of DeviceManager with its external
collaborators: logging, the registered callbacks, the TCP connector, the
select server and the outgoing message queue. -/
inductive Effect
  | logInfo
  | logWarn
  | logFatal
  | acquireCb (addr : Nat)
  | releaseCb (addr : Nat)
  | connectorAddEndpoint (addr : Nat)
  | connectorDisconnect (addr : Nat) (abandonRetries : Bool)
  | addReadDescriptor (sock : Nat)
  | removeReadDescriptor (sock : Option Nat)
  | heartbeatReceived (addr : Nat)
  | sendMessage (frame : AckFrame)
deriving DecidableEq

/-- Registry lookup, mirroring STLFindOrNull on m_device_map.  The map is
embedded as an association list keyed by the integer form of the IPv4
address. -/
def mapLookup (l : List (Nat × DeviceState)) (k : Nat) : Option DeviceState :=
  match l with
  | [] => none
  | (k2, v) :: rest => if k2 = k then some v else mapLookup rest k

/-- Replace the value stored at a key, leaving the list unchanged when the
key is absent. -/
def mapUpdate (l : List (Nat × DeviceState)) (k : Nat) (v : DeviceState) :
    List (Nat × DeviceState) :=
  match l with
  | [] => []
  | (k2, v2) :: rest =>
      if k2 = k then (k, v) :: rest else (k2, v2) :: mapUpdate rest k v

/-- Registry membership, mirroring STLContains on m_device_map. -/
def mapContains (l : List (Nat × DeviceState)) (k : Nat) : Bool :=
  (mapLookup l k).isSome

/-- DeviceManager state: the registry plus the three single-subscriber
callback registrations (modelled by whether a callback is installed). -/
structure DeviceManager where
  device_map : List (Nat × DeviceState)
  has_rdm_cb : Bool
  has_acquire_cb : Bool
  has_release_cb : Bool
deriving DecidableEq

/-- The DeviceManager constructor: empty registry, no callbacks
registered. -/
def DeviceManager.init : DeviceManager :=
  { device_map := []
    has_rdm_cb := false
    has_acquire_cb := false
    has_release_cb := false }

/-- SetRDMMessageCallback: replaces the registered handler
(last-writer-wins). -/
def DeviceManager.SetRDMMessageCallback (m : DeviceManager)
    (registered : Bool) : DeviceManager :=
  { m with has_rdm_cb := registered }

/-- SetAcquireDeviceCallback: replaces the controller-acquired handler. -/
def DeviceManager.SetAcquireDeviceCallback (m : DeviceManager)
    (registered : Bool) : DeviceManager :=
  { m with has_acquire_cb := registered }

/-- SetReleaseDeviceCallback: replaces the controller-released handler. -/
def DeviceManager.SetReleaseDeviceCallback (m : DeviceManager)
    (registered : Bool) : DeviceManager :=
  { m with has_release_cb := registered }

/-- AddDevice: a no-op when the address is already registered, otherwise
inserts a fresh DeviceState and asks the connector (backed by the backoff
policy) to begin non-blocking connection attempts. -/
def DeviceManager.AddDevice (m : DeviceManager) (addr : Nat) :
    DeviceManager × List Effect :=
  if mapContains m.device_map addr then (m, [])
  else
    ({ m with device_map := m.device_map ++ [(addr, DeviceState.init)] },
     [Effect.logInfo, Effect.connectorAddEndpoint addr])

/-- RemoveDevice: the source only looks the record up and logs
RemoveDevice not implemented (a TODO in the source); no state changes. -/
def DeviceManager.RemoveDevice (m : DeviceManager) (addr : Nat) :
    DeviceManager × List Effect :=
  match mapLookup m.device_map addr with
  | none => (m, [])
  | some _ => (m, [Effect.logWarn])

/-- RemoveDeviceIfNotConnected: identical to RemoveDevice in the source,
also a TODO that only logs. -/
def DeviceManager.RemoveDeviceIfNotConnected (m : DeviceManager)
    (addr : Nat) : DeviceManager × List Effect :=
  match mapLookup m.device_map addr with
  | none => (m, [])
  | some _ => (m, [Effect.logWarn])

/-- ListManagedDevices: the addresses of the records whose designated
controller flag is set. -/
def DeviceManager.ListManagedDevices (m : DeviceManager) : List Nat :=
  (m.device_map.filter fun p => p.2.am_designated_controller).map Prod.fst

/-- OnTCPConnect: reject non IPv4 peers, fatal-log and abort when the peer
has no registry record, otherwise store the socket, build the incoming
transport bound to it and register the socket for read readiness.  The
record is not designated at this point. -/
def DeviceManager.OnTCPConnect (m : DeviceManager) (peer : PeerAddress)
    (sock : Nat) : DeviceManager × List Effect :=
  match peer with
  | PeerAddress.other => (m, [Effect.logWarn])
  | PeerAddress.v4 host =>
    match mapLookup m.device_map host with
    | none => (m, [Effect.logFatal])
    | some ds =>
      let ds2 := { ds with socket := some sock, in_transport := true }
      ({ m with device_map := mapUpdate m.device_map host ds2 },
       [Effect.addReadDescriptor sock])

/-- SocketClosed: the single teardown path.  When the record was
designated the flag is cleared, the release callback runs when registered
and the connector keeps retrying; otherwise the race was lost and the
connector is told to abandon future retries.  In all cases the health
checked connection, the message queue and the incoming transport are
destroyed, the socket is removed from read readiness and released.  The
registry entry itself is kept. -/
def DeviceManager.SocketClosed (m : DeviceManager) (addr : Nat) :
    DeviceManager × List Effect :=
  match mapLookup m.device_map addr with
  | none => (m, [Effect.logInfo, Effect.logFatal])
  | some ds =>
    let ds1 :=
      if ds.am_designated_controller then
        { ds with am_designated_controller := false }
      else ds
    let effs1 :=
      if ds.am_designated_controller then
        (if m.has_release_cb then [Effect.releaseCb addr] else []) ++
          [Effect.connectorDisconnect addr false]
      else
        [Effect.connectorDisconnect addr true]
    let ds2 :=
      { ds1 with
          health_checked_connection := none
          message_queue := none
          in_transport := false
          socket := none }
    ({ m with device_map := mapUpdate m.device_map addr ds2 },
     Effect.logInfo :: (effs1 ++ [Effect.removeReadDescriptor ds.socket]))

/-- SocketUnhealthy: logs and delegates to the SocketClosed teardown
path. -/
def DeviceManager.SocketUnhealthy (m : DeviceManager) (addr : Nat) :
    DeviceManager × List Effect :=
  ((m.SocketClosed addr).1, Effect.logInfo :: (m.SocketClosed addr).2)

/-- RLPDataReceived: root layer data indication.  Non TCP data is ignored.
Unknown sources are fatal-logged.  On a designated record the health
checked connection is notified of a received heartbeat (an unchecked
dereference, hence the none result when the monitor is absent).  On a not
yet designated record the first packet promotes it: flag set, acquire
callback run when registered, message queue constructed, health checked
connection constructed; a Setup failure (the setupOk oracle, modelled from
the spec since the monitor internals are external) closes the session via
SocketClosed and abandons the promotion, otherwise the monitor is
installed (warning when one already existed). -/
def DeviceManager.RLPDataReceived (m : DeviceManager)
    (header : TransportHeader) (setupOk : Bool) :
    Option (DeviceManager × List Effect) :=
  match header.transport with
  | TransportKind.udp => some (m, [])
  | TransportKind.tcp =>
    let src := header.srcIp
    match mapLookup m.device_map src with
    | none => some (m, [Effect.logFatal])
    | some ds =>
      if ds.am_designated_controller then
        match ds.health_checked_connection with
        | none => none
        | some hc =>
          let ds2 :=
            { ds with health_checked_connection := some ⟨hc.heartbeats + 1⟩ }
          some ({ m with device_map := mapUpdate m.device_map src ds2 },
                [Effect.heartbeatReceived src])
      else
        let promoEffs :=
          Effect.logInfo ::
            (if m.has_acquire_cb then [Effect.acquireCb src] else [])
        let ds2 :=
          { ds with
              am_designated_controller := true
              message_queue := some { messages := [] } }
        let m2 := { m with device_map := mapUpdate m.device_map src ds2 }
        if setupOk then
          let warnEffs :=
            if ds2.health_checked_connection.isSome then [Effect.logWarn]
            else []
          let ds3 :=
            { ds2 with health_checked_connection := some ⟨0⟩ }
          some ({ m2 with device_map := mapUpdate m2.device_map src ds3 },
                promoEffs ++ warnEffs)
        else
          some ((m2.SocketClosed src).1,
                promoEffs ++ Effect.logWarn :: (m2.SocketClosed src).2)

/-- EndpointRequest: application request on the root endpoint.  Without a
registered handler the request is ignored; a declining handler (the ack
parameter models the boolean the handler returns) sends no reply; an
unknown source is warn-logged; otherwise a status acknowledgement frame
addressed by the E133 header sequence and endpoint is submitted to the
message queue of the record.  The queue dereference is unchecked in the
source, hence the none result when the queue is absent. -/
def DeviceManager.EndpointRequest (m : DeviceManager)
    (th : TransportHeader) (eh : E133Header) (ack : Bool) :
    Option (DeviceManager × List Effect) :=
  if !m.has_rdm_cb then some (m, [])
  else if !ack then some (m, [])
  else
    match mapLookup m.device_map th.srcIp with
    | none => some (m, [Effect.logWarn])
    | some ds =>
      match ds.message_queue with
      | none => none
      | some q =>
        let frame : AckFrame :=
          { sequence := eh.sequence, endpoint := eh.endpoint }
        let ds2 :=
          { ds with message_queue := some ⟨q.messages ++ [frame]⟩ }
        some ({ m with device_map := mapUpdate m.device_map th.srcIp ds2 },
              [Effect.sendMessage frame])

/-- Processes n consecutive inbound TCP application frames from one
source, threading the manager state and concatenating the effect traces
(every Setup succeeding). -/
def DeviceManager.processFrames (m : DeviceManager) (src : Nat) :
    Nat → Option (DeviceManager × List Effect)
  | 0 => some (m, [])
  | Nat.succ n =>
    match m.RLPDataReceived { transport := TransportKind.tcp, srcIp := src }
        true with
    | none => none
    | some (m1, effs1) =>
      match m1.processFrames src n with
      | none => none
      | some (m2, effs2) => some (m2, effs1 ++ effs2)

/-- True when the registry holds a record for the address and that record
has a live socket; inbound data and close events for an address are only
delivered by the event loop while its session is wired up. -/
def sessionActive (m : DeviceManager) (a : Nat) : Bool :=
  match mapLookup m.device_map a with
  | none => false
  | some ds => ds.socket.isSome

/-- Structural invariant of one lifecycle record: the message queue, the
health monitor and the inbound decoder exist only while the session
socket exists; the designated flag also forces the monitor and the queue
to be present. -/
def DeviceState.Inv (ds : DeviceState) : Prop :=
  (ds.am_designated_controller = true →
     ds.socket.isSome = true ∧ ds.message_queue.isSome = true ∧
       ds.health_checked_connection.isSome = true) ∧
  (ds.message_queue.isSome = true → ds.socket.isSome = true) ∧
  (ds.health_checked_connection.isSome = true → ds.socket.isSome = true) ∧
  (ds.in_transport = true → ds.socket.isSome = true)

/-- Registry invariant: at most one record per address, and every record
satisfies the per-record invariant. -/
def DeviceManager.Inv (m : DeviceManager) : Prop :=
  (m.device_map.map Prod.fst).Nodup ∧
    ∀ p ∈ m.device_map, DeviceState.Inv p.2

/-- External events driving the manager. -/
inductive Event
  | addDevice (a : Nat)
  | removeDevice (a : Nat)
  | removeDeviceIfNotConnected (a : Nat)
  | tcpConnect (peer : PeerAddress) (sock : Nat)
  | socketClosed (a : Nat)
  | socketUnhealthy (a : Nat)
  | rlpData (h : TransportHeader) (setupOk : Bool)
  | endpointRequest (th : TransportHeader) (eh : E133Header) (ack : Bool)
  | setRdm (b : Bool)
  | setAcquire (b : Bool)
  | setRelease (b : Bool)

/-- One handler execution.  Inbound TCP data events are gated on the
session being wired up, since the decoder delivering them is bound to the
record socket; a crashing handler (none result) has no step. -/
inductive Step : DeviceManager → Event → DeviceManager → List Effect → Prop
  | addDevice (m : DeviceManager) (a : Nat) :
      Step m (Event.addDevice a) (m.AddDevice a).1 (m.AddDevice a).2
  | removeDevice (m : DeviceManager) (a : Nat) :
      Step m (Event.removeDevice a) (m.RemoveDevice a).1 (m.RemoveDevice a).2
  | removeDeviceIfNotConnected (m : DeviceManager) (a : Nat) :
      Step m (Event.removeDeviceIfNotConnected a)
        (m.RemoveDeviceIfNotConnected a).1 (m.RemoveDeviceIfNotConnected a).2
  | tcpConnect (m : DeviceManager) (peer : PeerAddress) (sock : Nat) :
      Step m (Event.tcpConnect peer sock) (m.OnTCPConnect peer sock).1
        (m.OnTCPConnect peer sock).2
  | socketClosed (m : DeviceManager) (a : Nat) :
      Step m (Event.socketClosed a) (m.SocketClosed a).1 (m.SocketClosed a).2
  | socketUnhealthy (m : DeviceManager) (a : Nat) :
      Step m (Event.socketUnhealthy a) (m.SocketUnhealthy a).1
        (m.SocketUnhealthy a).2
  | rlpData (m : DeviceManager) (h : TransportHeader) (ok : Bool)
      (m2 : DeviceManager) (effs : List Effect) :
      (h.transport = TransportKind.tcp → sessionActive m h.srcIp = true) →
      m.RLPDataReceived h ok = some (m2, effs) →
      Step m (Event.rlpData h ok) m2 effs
  | endpointRequest (m : DeviceManager) (th : TransportHeader)
      (eh : E133Header) (ack : Bool) (m2 : DeviceManager)
      (effs : List Effect) :
      m.EndpointRequest th eh ack = some (m2, effs) →
      Step m (Event.endpointRequest th eh ack) m2 effs
  | setRdm (m : DeviceManager) (b : Bool) :
      Step m (Event.setRdm b) (m.SetRDMMessageCallback b) []
  | setAcquire (m : DeviceManager) (b : Bool) :
      Step m (Event.setAcquire b) (m.SetAcquireDeviceCallback b) []
  | setRelease (m : DeviceManager) (b : Bool) :
      Step m (Event.setRelease b) (m.SetReleaseDeviceCallback b) []

/-- Manager states reachable from the constructor by handler
executions. -/
inductive Reachable : DeviceManager → Prop
  | init : Reachable DeviceManager.init
  | step (m : DeviceManager) (e : Event) (m2 : DeviceManager)
      (effs : List Effect) :
      Reachable m → Step m e m2 effs → Reachable m2

/-- A record in the Connected/Unconfirmed state: live socket and decoder,
no queue, no monitor, not designated. -/
def dsConnected : DeviceState :=
  { socket := some 7
    message_queue := none
    health_checked_connection := none
    in_transport := true
    am_designated_controller := false }

/-- A record in the Designated state: live socket, decoder, queue and
monitor, flag set. -/
def dsDesignated : DeviceState :=
  { socket := some 7
    message_queue := some ⟨[]⟩
    health_checked_connection := some ⟨0⟩
    in_transport := true
    am_designated_controller := true }

/-- A manager holding one Connected/Unconfirmed record at address 1, all
callbacks registered. -/
def mgrConnected : DeviceManager :=
  { device_map := [(1, dsConnected)]
    has_rdm_cb := true
    has_acquire_cb := true
    has_release_cb := true }

/-- A manager holding one Designated record at address 1, all callbacks
registered. -/
def mgrDesignated : DeviceManager :=
  { device_map := [(1, dsDesignated)]
    has_rdm_cb := true
    has_acquire_cb := true
    has_release_cb := true }

/-- A manager holding one Designated record at address 1 with no
callbacks registered. -/
def mgrNoCb : DeviceManager :=
  { device_map := [(1, dsDesignated)]
    has_rdm_cb := false
    has_acquire_cb := false
    has_release_cb := false }

/-- The manager after registering all callbacks and adding device 1. -/
def mgrStep1 : DeviceManager :=
  ((((DeviceManager.init.SetRDMMessageCallback true).SetAcquireDeviceCallback
      true).SetReleaseDeviceCallback true).AddDevice 1).1

/-- The manager after device 1 additionally completed its TCP connect with
socket 7. -/
def mgrStep2 : DeviceManager :=
  (mgrStep1.OnTCPConnect (PeerAddress.v4 1) 7).1

lemma mapLookup_mem {l : List (Nat × DeviceState)} {k : Nat}
    {v : DeviceState} (h : mapLookup l k = some v) : (k, v) ∈ l := by
  induction l with
  | nil => simp [mapLookup] at h
  | cons p rest ih =>
    obtain ⟨k2, v2⟩ := p
    rw [mapLookup] at h
    by_cases hk : k2 = k
    · simp [hk] at h
      simp [hk, h]
    · simp [hk] at h
      exact List.mem_cons_of_mem _ (ih h)

lemma mapLookup_update_self {l : List (Nat × DeviceState)} {k : Nat}
    {w : DeviceState} (v : DeviceState) (h : mapLookup l k = some w) :
    mapLookup (mapUpdate l k v) k = some v := by
  induction l with
  | nil => simp [mapLookup] at h
  | cons p rest ih =>
    obtain ⟨k2, v2⟩ := p
    rw [mapLookup] at h
    by_cases hk : k2 = k
    · simp [mapUpdate, hk, mapLookup]
    · simp [hk] at h
      simp [mapUpdate, hk, mapLookup, ih h]

lemma mapUpdate_update (l : List (Nat × DeviceState)) (k : Nat)
    (v w : DeviceState) : mapUpdate (mapUpdate l k v) k w = mapUpdate l k w := by
  induction l with
  | nil => simp [mapUpdate]
  | cons p rest ih =>
    obtain ⟨k2, v2⟩ := p
    by_cases hk : k2 = k
    · simp [mapUpdate, hk]
    · simp [mapUpdate, hk, ih]

lemma mapUpdate_self {l : List (Nat × DeviceState)} {k : Nat}
    {v : DeviceState} (h : mapLookup l k = some v) : mapUpdate l k v = l := by
  induction l with
  | nil => simp [mapUpdate]
  | cons p rest ih =>
    obtain ⟨k2, v2⟩ := p
    rw [mapLookup] at h
    by_cases hk : k2 = k
    · simp [hk] at h
      simp [mapUpdate, hk, h]
    · simp [hk] at h
      simp [mapUpdate, hk, ih h]

lemma mapUpdate_keys (l : List (Nat × DeviceState)) (k : Nat)
    (v : DeviceState) : (mapUpdate l k v).map Prod.fst = l.map Prod.fst := by
  induction l with
  | nil => simp [mapUpdate]
  | cons p rest ih =>
    obtain ⟨k2, v2⟩ := p
    by_cases hk : k2 = k
    · simp [mapUpdate, hk]
    · simp [mapUpdate, hk, ih]

lemma mapUpdate_mem {l : List (Nat × DeviceState)} {k : Nat}
    {v : DeviceState} {p : Nat × DeviceState} (hp : p ∈ mapUpdate l k v) :
    p = (k, v) ∨ p ∈ l := by
  induction l with
  | nil => simp [mapUpdate] at hp
  | cons q rest ih =>
    obtain ⟨k2, v2⟩ := q
    by_cases hk : k2 = k
    · simp [mapUpdate, hk] at hp
      rcases hp with hp | hp
      · exact Or.inl hp
      · exact Or.inr (List.mem_cons_of_mem _ hp)
    · simp [mapUpdate, hk] at hp
      rcases hp with hp | hp
      · exact Or.inr (by simp [hp])
      · rcases ih hp with h2 | h2
        · exact Or.inl h2
        · exact Or.inr (List.mem_cons_of_mem _ h2)

lemma mapLookup_eq_none {l : List (Nat × DeviceState)} {k : Nat}
    (h : mapLookup l k = none) : k ∉ l.map Prod.fst := by
  induction l with
  | nil => simp
  | cons p rest ih =>
    obtain ⟨k2, v2⟩ := p
    rw [mapLookup] at h
    by_cases hk : k2 = k
    · simp [hk] at h
    · simp [hk] at h
      simp [ih h]
      exact fun hc => hk hc.symm

lemma mapLookup_append_self {l : List (Nat × DeviceState)} {k : Nat}
    (v : DeviceState) (h : mapLookup l k = none) :
    mapLookup (l ++ [(k, v)]) k = some v := by
  induction l with
  | nil => simp [mapLookup]
  | cons p rest ih =>
    obtain ⟨k2, v2⟩ := p
    rw [mapLookup] at h
    by_cases hk : k2 = k
    · simp [hk] at h
    · simp [hk] at h
      simp [mapLookup, hk, ih h]

lemma SocketClosed_none {m : DeviceManager} {a : Nat}
    (h : mapLookup m.device_map a = none) :
    m.SocketClosed a = (m, [Effect.logInfo, Effect.logFatal]) := by
  simp [DeviceManager.SocketClosed, h]

lemma SocketClosed_some (m : DeviceManager) {a : Nat} {ds : DeviceState}
    (h : mapLookup m.device_map a = some ds) :
    m.SocketClosed a =
      ({ m with device_map := mapUpdate m.device_map a DeviceState.init },
       Effect.logInfo ::
         ((if ds.am_designated_controller then
             (if m.has_release_cb then [Effect.releaseCb a] else []) ++
               [Effect.connectorDisconnect a false]
           else [Effect.connectorDisconnect a true]) ++
           [Effect.removeReadDescriptor ds.socket])) := by
  cases hd : ds.am_designated_controller <;>
    simp [DeviceManager.SocketClosed, h, hd, DeviceState.init]

lemma RLP_udp (m : DeviceManager) (src : Nat) (ok : Bool) :
    m.RLPDataReceived { transport := TransportKind.udp, srcIp := src } ok =
      some (m, []) := rfl

lemma RLP_none {m : DeviceManager} {src : Nat} (ok : Bool)
    (h : mapLookup m.device_map src = none) :
    m.RLPDataReceived { transport := TransportKind.tcp, srcIp := src } ok =
      some (m, [Effect.logFatal]) := by
  simp [DeviceManager.RLPDataReceived, h]

lemma RLP_heartbeat {m : DeviceManager} {src : Nat} {ds : DeviceState}
    {hc : HealthCheckedConnection} (ok : Bool)
    (h : mapLookup m.device_map src = some ds)
    (hd : ds.am_designated_controller = true)
    (hh : ds.health_checked_connection = some hc) :
    m.RLPDataReceived { transport := TransportKind.tcp, srcIp := src } ok =
      some ({ m with
                device_map := mapUpdate m.device_map src
                  ({ ds with health_checked_connection := some ⟨hc.heartbeats + 1⟩ }) },
            [Effect.heartbeatReceived src]) := by
  simp [DeviceManager.RLPDataReceived, h, hd, hh]

lemma RLP_heartbeat_crash {m : DeviceManager} {src : Nat} {ds : DeviceState}
    (ok : Bool) (h : mapLookup m.device_map src = some ds)
    (hd : ds.am_designated_controller = true)
    (hh : ds.health_checked_connection = none) :
    m.RLPDataReceived { transport := TransportKind.tcp, srcIp := src } ok =
      none := by
  simp [DeviceManager.RLPDataReceived, h, hd, hh]

lemma RLP_promote_ok {m : DeviceManager} {src : Nat} {ds : DeviceState}
    (h : mapLookup m.device_map src = some ds)
    (hd : ds.am_designated_controller = false) :
    m.RLPDataReceived { transport := TransportKind.tcp, srcIp := src } true =
      some ({ m with
                device_map := mapUpdate m.device_map src
                  ({ ds with
                      am_designated_controller := true
                      message_queue := some ⟨[]⟩
                      health_checked_connection := some ⟨0⟩ }) },
            (Effect.logInfo ::
               (if m.has_acquire_cb then [Effect.acquireCb src] else [])) ++
              (if ds.health_checked_connection.isSome then [Effect.logWarn]
               else [])) := by
  simp [DeviceManager.RLPDataReceived, h, hd, mapUpdate_update]

lemma RLP_promote_fail {m : DeviceManager} {src : Nat} {ds : DeviceState}
    (h : mapLookup m.device_map src = some ds)
    (hd : ds.am_designated_controller = false) :
    m.RLPDataReceived { transport := TransportKind.tcp, srcIp := src } false =
      some ({ m with
                device_map := mapUpdate m.device_map src DeviceState.init },
            (Effect.logInfo ::
               (if m.has_acquire_cb then [Effect.acquireCb src] else [])) ++
              Effect.logWarn ::
                Effect.logInfo ::
                  (((if m.has_release_cb then [Effect.releaseCb src] else []) ++
                      [Effect.connectorDisconnect src false]) ++
                    [Effect.removeReadDescriptor ds.socket])) := by
  have h2 : mapLookup
      (mapUpdate m.device_map src
        ({ ds with
            am_designated_controller := true
            message_queue := some ⟨[]⟩ })) src =
      some ({ ds with
               am_designated_controller := true
               message_queue := some ⟨[]⟩ }) :=
    mapLookup_update_self _ h
  have hclose := SocketClosed_some
    ({ m with
        device_map := mapUpdate m.device_map src
          ({ ds with
              am_designated_controller := true
              message_queue := some ⟨[]⟩ }) }) h2
  simp [DeviceManager.RLPDataReceived, h, hd, hclose, mapUpdate_update]

lemma AddDevice_contains {m : DeviceManager} {a : Nat}
    (h : mapContains m.device_map a = true) : m.AddDevice a = (m, []) := by
  simp [DeviceManager.AddDevice, h]

lemma AddDevice_new {m : DeviceManager} {a : Nat}
    (h : mapContains m.device_map a = false) :
    m.AddDevice a =
      ({ m with device_map := m.device_map ++ [(a, DeviceState.init)] },
       [Effect.logInfo, Effect.connectorAddEndpoint a]) := by
  simp [DeviceManager.AddDevice, h]

lemma EndpointRequest_no_cb {m : DeviceManager} (th : TransportHeader)
    (eh : E133Header) (ack : Bool) (h : m.has_rdm_cb = false) :
    m.EndpointRequest th eh ack = some (m, []) := by
  simp [DeviceManager.EndpointRequest, h]

lemma EndpointRequest_no_ack {m : DeviceManager} (th : TransportHeader)
    (eh : E133Header) (h : m.has_rdm_cb = true) :
    m.EndpointRequest th eh false = some (m, []) := by
  simp [DeviceManager.EndpointRequest, h]

lemma EndpointRequest_unknown {m : DeviceManager} {th : TransportHeader}
    (eh : E133Header) (hr : m.has_rdm_cb = true)
    (hlook : mapLookup m.device_map th.srcIp = none) :
    m.EndpointRequest th eh true = some (m, [Effect.logWarn]) := by
  simp [DeviceManager.EndpointRequest, hr, hlook]

lemma EndpointRequest_no_queue {m : DeviceManager} {th : TransportHeader}
    {ds : DeviceState} (eh : E133Header) (hr : m.has_rdm_cb = true)
    (hlook : mapLookup m.device_map th.srcIp = some ds)
    (hq : ds.message_queue = none) :
    m.EndpointRequest th eh true = none := by
  simp [DeviceManager.EndpointRequest, hr, hlook, hq]

lemma EndpointRequest_send {m : DeviceManager} {th : TransportHeader}
    {ds : DeviceState} {q : MessageQueue} (eh : E133Header)
    (hr : m.has_rdm_cb = true)
    (hlook : mapLookup m.device_map th.srcIp = some ds)
    (hq : ds.message_queue = some q) :
    m.EndpointRequest th eh true =
      some ({ m with
                device_map := mapUpdate m.device_map th.srcIp
                  ({ ds with message_queue := some ⟨q.messages ++ [⟨eh.sequence, eh.endpoint⟩]⟩ }) },
            [Effect.sendMessage ⟨eh.sequence, eh.endpoint⟩]) := by
  simp [DeviceManager.EndpointRequest, hr, hlook, hq]

lemma inv_update {m : DeviceManager} (a : Nat) (ds2 : DeviceState)
    (hm : m.Inv) (h2 : DeviceState.Inv ds2) :
    DeviceManager.Inv { m with device_map := mapUpdate m.device_map a ds2 } := by
  constructor
  · simpa [mapUpdate_keys] using hm.1
  · intro p hp
    rcases mapUpdate_mem hp with h | h
    · rw [h]
      exact h2
    · exact hm.2 p h

lemma init_state_inv : DeviceState.Inv DeviceState.init := by
  simp [DeviceState.Inv, DeviceState.init]

lemma socketClosed_inv {m : DeviceManager} (a : Nat) (hm : m.Inv) :
    DeviceManager.Inv (m.SocketClosed a).1 := by
  cases h : mapLookup m.device_map a with
  | none => rw [SocketClosed_none h]; exact hm
  | some ds =>
    rw [SocketClosed_some m h]
    exact inv_update a DeviceState.init hm init_state_inv

lemma step_preserves_inv {m : DeviceManager} {e : Event}
    {m2 : DeviceManager} {effs : List Effect} (hs : Step m e m2 effs)
    (hm : m.Inv) : m2.Inv := by
  cases hs with
  | addDevice a =>
    cases hc : mapContains m.device_map a with
    | true => rw [AddDevice_contains hc]; exact hm
    | false =>
      have hn : mapLookup m.device_map a = none := by
        rw [mapContains] at hc
        exact Option.not_isSome_iff_eq_none.mp (by simp [hc])
      rw [AddDevice_new hc]
      constructor
      · simp [List.nodup_append, hm.1, mapLookup_eq_none hn]
      · intro p hp
        simp at hp
        rcases hp with hp | hp
        · exact hm.2 p hp
        · rw [hp]
          exact init_state_inv
  | removeDevice a =>
    cases h : mapLookup m.device_map a <;>
      simpa [DeviceManager.RemoveDevice, h] using hm
  | removeDeviceIfNotConnected a =>
    cases h : mapLookup m.device_map a <;>
      simpa [DeviceManager.RemoveDeviceIfNotConnected, h] using hm
  | tcpConnect peer sock =>
    cases peer with
    | other => simpa [DeviceManager.OnTCPConnect] using hm
    | v4 host =>
      cases h : mapLookup m.device_map host with
      | none => simpa [DeviceManager.OnTCPConnect, h] using hm
      | some ds =>
        have hds := hm.2 (host, ds) (mapLookup_mem h)
        have h2 : DeviceState.Inv
            ({ ds with socket := some sock, in_transport := true }) := by
          refine ⟨fun hdc => ?_, fun _ => rfl, fun _ => rfl, fun _ => rfl⟩
          exact ⟨rfl, (hds.1 hdc).2.1, (hds.1 hdc).2.2⟩
        simpa [DeviceManager.OnTCPConnect, h] using
          inv_update host _ hm h2
  | socketClosed a => exact socketClosed_inv a hm
  | socketUnhealthy a =>
    have he : (m.SocketUnhealthy a).1 = (m.SocketClosed a).1 := rfl
    rw [he]
    exact socketClosed_inv a hm
  | rlpData h ok m2 effs hgate heq =>
    obtain ⟨tr, src⟩ := h
    cases tr with
    | udp =>
      rw [RLP_udp] at heq
      simp only [Option.some.injEq, Prod.mk.injEq] at heq
      rw [← heq.1]
      exact hm
    | tcp =>
      have hsess : sessionActive m src = true := hgate rfl
      cases hlook : mapLookup m.device_map src with
      | none => simp [sessionActive, hlook] at hsess
      | some ds =>
        have hds := hm.2 (src, ds) (mapLookup_mem hlook)
        have hsock : ds.socket.isSome = true := by
          simpa [sessionActive, hlook] using hsess
        cases hdc : ds.am_designated_controller with
        | true =>
          cases hhc : ds.health_checked_connection with
          | none => rw [RLP_heartbeat_crash ok hlook hdc hhc] at heq; cases heq
          | some hc =>
            rw [RLP_heartbeat ok hlook hdc hhc] at heq
            simp only [Option.some.injEq, Prod.mk.injEq] at heq
            rw [← heq.1]
            refine inv_update _ _ hm ?_
            refine ⟨fun _ => ⟨hsock, (hds.1 hdc).2.1, rfl⟩,
              fun _ => hsock, fun _ => hsock, fun h4 => hds.2.2.2 h4⟩
        | false =>
          cases ok with
          | true =>
            rw [RLP_promote_ok hlook hdc] at heq
            simp only [Option.some.injEq, Prod.mk.injEq] at heq
            rw [← heq.1]
            refine inv_update _ _ hm ?_
            exact ⟨fun _ => ⟨hsock, rfl, rfl⟩, fun _ => hsock,
              fun _ => hsock, fun h4 => hds.2.2.2 h4⟩
          | false =>
            rw [RLP_promote_fail hlook hdc] at heq
            simp only [Option.some.injEq, Prod.mk.injEq] at heq
            rw [← heq.1]
            exact inv_update _ _ hm init_state_inv
  | endpointRequest th eh ack m2 effs heq =>
    cases hr : m.has_rdm_cb with
    | false =>
      rw [EndpointRequest_no_cb th eh ack hr] at heq
      simp only [Option.some.injEq, Prod.mk.injEq] at heq
      rw [← heq.1]
      exact hm
    | true =>
      cases ha : ack with
      | false =>
        rw [ha] at heq
        rw [EndpointRequest_no_ack th eh hr] at heq
        simp only [Option.some.injEq, Prod.mk.injEq] at heq
        rw [← heq.1]
        exact hm
      | true =>
        rw [ha] at heq
        cases hlook : mapLookup m.device_map th.srcIp with
        | none =>
          rw [EndpointRequest_unknown eh hr hlook] at heq
          simp only [Option.some.injEq, Prod.mk.injEq] at heq
          rw [← heq.1]
          exact hm
        | some ds =>
          cases hq : ds.message_queue with
          | none => rw [EndpointRequest_no_queue eh hr hlook hq] at heq; cases heq
          | some q =>
            have hds := hm.2 (th.srcIp, ds) (mapLookup_mem hlook)
            have hqs : ds.socket.isSome = true := by
              apply hds.2.1
              simp [hq]
            rw [EndpointRequest_send eh hr hlook hq] at heq
            simp only [Option.some.injEq, Prod.mk.injEq] at heq
            rw [← heq.1]
            refine inv_update _ _ hm ?_
            refine ⟨fun hdc => ⟨hqs, rfl, (hds.1 hdc).2.2⟩,
              fun _ => hqs, fun h4 => hds.2.2.1 h4, fun h4 => hds.2.2.2 h4⟩
  | setRdm b => exact hm
  | setAcquire b => exact hm
  | setRelease b => exact hm

lemma processFrames_succ {m m1 m2 : DeviceManager} {src : Nat}
    {effs1 effs2 : List Effect} (n : Nat)
    (h1 : m.RLPDataReceived { transport := TransportKind.tcp, srcIp := src }
        true = some (m1, effs1))
    (h2 : m1.processFrames src n = some (m2, effs2)) :
    m.processFrames src (n + 1) = some (m2, effs1 ++ effs2) := by
  simp [DeviceManager.processFrames, h1, h2]

lemma processFrames_designated (n : Nat) :
    ∀ (m : DeviceManager) (src : Nat) (ds : DeviceState)
      (hc : HealthCheckedConnection),
      mapLookup m.device_map src = some ds →
      ds.am_designated_controller = true →
      ds.health_checked_connection = some hc →
      m.processFrames src n =
        some ({ m with
                  device_map := mapUpdate m.device_map src
                    ({ ds with health_checked_connection := some ⟨hc.heartbeats + n⟩ }) },
              List.replicate n (Effect.heartbeatReceived src)) := by
  induction n with
  | zero =>
    intro m src ds hc hlook hdc hhc
    have h1 : ({ ds with health_checked_connection := some ⟨hc.heartbeats + 0⟩ }) = ds := by
      obtain ⟨hb⟩ := hc
      simp only [Nat.add_zero]
      rw [← hhc]
    rw [h1, mapUpdate_self hlook]
    rfl
  | succ n ih =>
    intro m src ds hc hlook hdc hhc
    have h1 := RLP_heartbeat true hlook hdc hhc
    have ih2 := ih
      ({ m with
          device_map := mapUpdate m.device_map src
            ({ ds with health_checked_connection := some ⟨hc.heartbeats + 1⟩ }) })
      src
      ({ ds with health_checked_connection := some ⟨hc.heartbeats + 1⟩ })
      ⟨hc.heartbeats + 1⟩
      (mapLookup_update_self _ hlook) hdc rfl
    rw [processFrames_succ n h1 ih2]
    have harith : hc.heartbeats + 1 + n = hc.heartbeats + (n + 1) := by omega
    simp only [mapUpdate_update, harith, List.replicate_succ,
      List.singleton_append]

/-- C9: AddDevice is a no-op when the address is already registered; for
an unregistered address it creates a fresh record with no session, no
queue, no monitor, no decoder and a false designated flag, and starts
non-blocking connection attempts through the backoff-backed connector; a
second AddDevice for the same address then has no effect at all. -/
theorem add_device_registers_once (m : DeviceManager) (a : Nat) :
    (mapContains m.device_map a = true → m.AddDevice a = (m, [])) ∧
    (mapContains m.device_map a = false →
      m.AddDevice a =
        ({ m with device_map := m.device_map ++ [(a, DeviceState.init)] },
         [Effect.logInfo, Effect.connectorAddEndpoint a]) ∧
      mapLookup (m.AddDevice a).1.device_map a = some DeviceState.init ∧
      (m.AddDevice a).1.AddDevice a = ((m.AddDevice a).1, []) ∧
      DeviceState.init.socket = none ∧
      DeviceState.init.message_queue = none ∧
      DeviceState.init.health_checked_connection = none ∧
      DeviceState.init.in_transport = false ∧
      DeviceState.init.am_designated_controller = false) := by
  constructor
  · exact fun h => AddDevice_contains h
  · intro h
    have hn : mapLookup m.device_map a = none := by
      rw [mapContains] at h
      exact Option.not_isSome_iff_eq_none.mp (by simp [h])
    have hlook2 : mapLookup (m.AddDevice a).1.device_map a =
        some DeviceState.init := by
      rw [AddDevice_new h]
      exact mapLookup_append_self _ hn
    refine ⟨AddDevice_new h, hlook2, ?_, rfl, rfl, rfl, rfl, rfl⟩
    apply AddDevice_contains
    rw [mapContains, hlook2]
    rfl

/-- Witness for C9 at concrete inputs: address 1 is registered in
mgrConnected (second add is a no-op), address 5 is not (fresh record is
created and the connector armed). -/
theorem add_device_registers_once_witness :
    (mapContains mgrConnected.device_map 1 = true ∧
      mgrConnected.AddDevice 1 = (mgrConnected, [])) ∧
    (mapContains mgrConnected.device_map 5 = false ∧
      (mgrConnected.AddDevice 5 =
        ({ mgrConnected with
            device_map := mgrConnected.device_map ++ [(5, DeviceState.init)] },
         [Effect.logInfo, Effect.connectorAddEndpoint 5]) ∧
      mapLookup (mgrConnected.AddDevice 5).1.device_map 5 =
        some DeviceState.init ∧
      (mgrConnected.AddDevice 5).1.AddDevice 5 =
        ((mgrConnected.AddDevice 5).1, []) ∧
      DeviceState.init.socket = none ∧
      DeviceState.init.message_queue = none ∧
      DeviceState.init.health_checked_connection = none ∧
      DeviceState.init.in_transport = false ∧
      DeviceState.init.am_designated_controller = false)) :=
  ⟨⟨by decide, (add_device_registers_once mgrConnected 1).1 (by decide)⟩,
   ⟨by decide, (add_device_registers_once mgrConnected 5).2 (by decide)⟩⟩

/-- C7: the source leaves RemoveDevice and RemoveDeviceIfNotConnected
unimplemented (a TODO that only logs a warning).  On a registered endpoint
with a live designated session neither operation cancels the connection,
closes the session, releases sub-objects or erases the registry entry:
the record survives untouched, session included. -/
theorem remove_device_unimplemented :
    mgrDesignated.RemoveDevice 1 = (mgrDesignated, [Effect.logWarn]) ∧
    mgrDesignated.RemoveDeviceIfNotConnected 1 =
      (mgrDesignated, [Effect.logWarn]) ∧
    mapLookup (mgrDesignated.RemoveDevice 1).1.device_map 1 =
      some dsDesignated ∧
    dsDesignated.socket = some 7 ∧
    dsDesignated.am_designated_controller = true := by decide

/-- C6: a connect completion, inbound TCP data or close event whose
address has no registry record is fatal-logged and aborts only that
operation: the manager (registry included) is returned unchanged, and the
data path returns normally (some, not a crash). -/
theorem unknown_address_aborts (m : DeviceManager) (a sock : Nat)
    (ok : Bool) (h : mapLookup m.device_map a = none) :
    m.OnTCPConnect (PeerAddress.v4 a) sock = (m, [Effect.logFatal]) ∧
    m.RLPDataReceived { transport := TransportKind.tcp, srcIp := a } ok =
      some (m, [Effect.logFatal]) ∧
    m.SocketClosed a = (m, [Effect.logInfo, Effect.logFatal]) := by
  refine ⟨?_, RLP_none ok h, SocketClosed_none h⟩
  simp [DeviceManager.OnTCPConnect, h]

/-- Witness for C6: address 9 is unknown to mgrConnected. -/
theorem unknown_address_aborts_witness :
    mapLookup mgrConnected.device_map 9 = none ∧
    (mgrConnected.OnTCPConnect (PeerAddress.v4 9) 5 =
      (mgrConnected, [Effect.logFatal]) ∧
    mgrConnected.RLPDataReceived
        { transport := TransportKind.tcp, srcIp := 9 } true =
      some (mgrConnected, [Effect.logFatal]) ∧
    mgrConnected.SocketClosed 9 =
      (mgrConnected, [Effect.logInfo, Effect.logFatal])) :=
  ⟨by decide, unknown_address_aborts mgrConnected 9 5 true (by decide)⟩

/-- C4: heartbeat failure and session close share one teardown path
(SocketUnhealthy logs and delegates to SocketClosed); the teardown clears
the designated flag (running the release callback only when the record
was designated and a callback is registered), destroys monitor, queue and
decoder, removes the socket from read readiness and releases it, and never
erases the registry entry (the key set is unchanged and the record is
still registered, now fully cleared). -/
theorem teardown_unified (m : DeviceManager) (a : Nat) (ds : DeviceState)
    (h : mapLookup m.device_map a = some ds) :
    m.SocketUnhealthy a =
      ((m.SocketClosed a).1, Effect.logInfo :: (m.SocketClosed a).2) ∧
    m.SocketClosed a =
      ({ m with device_map := mapUpdate m.device_map a DeviceState.init },
       Effect.logInfo ::
         ((if ds.am_designated_controller then
             (if m.has_release_cb then [Effect.releaseCb a] else []) ++
               [Effect.connectorDisconnect a false]
           else [Effect.connectorDisconnect a true]) ++
           [Effect.removeReadDescriptor ds.socket])) ∧
    mapLookup (m.SocketClosed a).1.device_map a = some DeviceState.init ∧
    (m.SocketClosed a).1.device_map.map Prod.fst =
      m.device_map.map Prod.fst := by
  refine ⟨rfl, SocketClosed_some m h, ?_, ?_⟩
  · rw [SocketClosed_some m h]
    exact mapLookup_update_self _ h
  · rw [SocketClosed_some m h]
    exact mapUpdate_keys _ _ _

/-- Witness for C4 at a designated record: the release callback fires,
everything is torn down, the entry survives. -/
theorem teardown_unified_witness :
    mapLookup mgrDesignated.device_map 1 = some dsDesignated ∧
    (mgrDesignated.SocketUnhealthy 1 =
      ((mgrDesignated.SocketClosed 1).1,
        Effect.logInfo :: (mgrDesignated.SocketClosed 1).2) ∧
    mgrDesignated.SocketClosed 1 =
      ({ mgrDesignated with
          device_map := mapUpdate mgrDesignated.device_map 1 DeviceState.init },
       Effect.logInfo ::
         ((if dsDesignated.am_designated_controller then
             (if mgrDesignated.has_release_cb then [Effect.releaseCb 1] else []) ++
               [Effect.connectorDisconnect 1 false]
           else [Effect.connectorDisconnect 1 true]) ++
           [Effect.removeReadDescriptor dsDesignated.socket])) ∧
    mapLookup (mgrDesignated.SocketClosed 1).1.device_map 1 =
      some DeviceState.init ∧
    (mgrDesignated.SocketClosed 1).1.device_map.map Prod.fst =
      mgrDesignated.device_map.map Prod.fst) :=
  ⟨by decide, teardown_unified mgrDesignated 1 dsDesignated (by decide)⟩

/-- C5 counterexample: a record that closes before ever being designated.
The claim says future attempts remain driven by the retry schedule (not
permanently disabled), but the code passes abandon-retries = true to the
connector (spec section 6 models Disconnect(address, abandonFutureRetries));
no retry-preserving disconnect is issued. -/
theorem lost_election_retries_cex :
    mapLookup mgrConnected.device_map 1 = some dsConnected ∧
    dsConnected.am_designated_controller = false ∧
    (mgrConnected.SocketClosed 1).2 =
      [Effect.logInfo, Effect.connectorDisconnect 1 true,
        Effect.removeReadDescriptor (some 7)] ∧
    Effect.connectorDisconnect 1 false ∉ (mgrConnected.SocketClosed 1).2 := by
  decide

/-- C5 amended: when a session closes before the record was ever
designated, the current attempt ends, the connector is told to disconnect
with abandon-future-retries set (so the schedule is stopped rather than
continued), no immediate reconnect is initiated, backoff state is never
touched by this path, and the endpoint stays registered. -/
theorem lost_election_abandons_retries (m : DeviceManager) (a : Nat)
    (ds : DeviceState) (h : mapLookup m.device_map a = some ds)
    (hd : ds.am_designated_controller = false) :
    (m.SocketClosed a).2 =
      [Effect.logInfo, Effect.connectorDisconnect a true,
        Effect.removeReadDescriptor ds.socket] ∧
    Effect.connectorDisconnect a false ∉ (m.SocketClosed a).2 ∧
    Effect.connectorAddEndpoint a ∉ (m.SocketClosed a).2 ∧
    mapContains (m.SocketClosed a).1.device_map a = true := by
  rw [SocketClosed_some m h, hd]
  refine ⟨by simp, by simp, by simp, ?_⟩
  simp [mapContains, mapLookup_update_self DeviceState.init h]

/-- Witness for C5 amended, at the concrete undesignated record. -/
theorem lost_election_abandons_retries_witness :
    mapLookup mgrConnected.device_map 1 = some dsConnected ∧
    ((mgrConnected.SocketClosed 1).2 =
      [Effect.logInfo, Effect.connectorDisconnect 1 true,
        Effect.removeReadDescriptor dsConnected.socket] ∧
    Effect.connectorDisconnect 1 false ∉ (mgrConnected.SocketClosed 1).2 ∧
    Effect.connectorAddEndpoint 1 ∉ (mgrConnected.SocketClosed 1).2 ∧
    mapContains (mgrConnected.SocketClosed 1).1.device_map 1 = true) :=
  ⟨by decide,
   lost_election_abandons_retries mgrConnected 1 dsConnected (by decide)
     (by decide)⟩

/-- C3: when the health monitor Setup fails during promotion, the session
is closed on the spot through the teardown path and the promotion is
abandoned: the record ends with the designated flag false, no monitor, no
queue and no session, and the failure never leaves a partially promoted
record behind. -/
theorem setup_failure_aborts_promotion (m : DeviceManager) (a : Nat)
    (ds : DeviceState) (h : mapLookup m.device_map a = some ds)
    (hd : ds.am_designated_controller = false) :
    m.RLPDataReceived { transport := TransportKind.tcp, srcIp := a } false =
      some ({ m with
                device_map := mapUpdate m.device_map a DeviceState.init },
            (Effect.logInfo ::
               (if m.has_acquire_cb then [Effect.acquireCb a] else [])) ++
              Effect.logWarn ::
                Effect.logInfo ::
                  (((if m.has_release_cb then [Effect.releaseCb a] else []) ++
                      [Effect.connectorDisconnect a false]) ++
                    [Effect.removeReadDescriptor ds.socket])) ∧
    mapLookup (mapUpdate m.device_map a DeviceState.init) a =
      some DeviceState.init ∧
    DeviceState.init.am_designated_controller = false ∧
    DeviceState.init.health_checked_connection = none ∧
    DeviceState.init.message_queue = none ∧
    DeviceState.init.socket = none :=
  ⟨RLP_promote_fail h hd, mapLookup_update_self _ h, rfl, rfl, rfl, rfl⟩

/-- Witness for C3 at the concrete Connected/Unconfirmed record. -/
theorem setup_failure_aborts_promotion_witness :
    mapLookup mgrConnected.device_map 1 = some dsConnected ∧
    (mgrConnected.RLPDataReceived
        { transport := TransportKind.tcp, srcIp := 1 } false =
      some ({ mgrConnected with
                device_map := mapUpdate mgrConnected.device_map 1
                  DeviceState.init },
            (Effect.logInfo ::
               (if mgrConnected.has_acquire_cb then [Effect.acquireCb 1]
                else [])) ++
              Effect.logWarn ::
                Effect.logInfo ::
                  (((if mgrConnected.has_release_cb then [Effect.releaseCb 1]
                      else []) ++
                      [Effect.connectorDisconnect 1 false]) ++
                    [Effect.removeReadDescriptor dsConnected.socket])) ∧
    mapLookup (mapUpdate mgrConnected.device_map 1 DeviceState.init) 1 =
      some DeviceState.init ∧
    DeviceState.init.am_designated_controller = false ∧
    DeviceState.init.health_checked_connection = none ∧
    DeviceState.init.message_queue = none ∧
    DeviceState.init.socket = none) :=
  ⟨by decide,
   setup_failure_aborts_promotion mgrConnected 1 dsConnected (by decide)
     (by decide)⟩

/-- C8: an application request is ignored when no handler is registered;
no reply is sent when the handler declines; otherwise a status
acknowledgement frame carrying the originating E133 header sequence and
endpoint is enqueued on the source record message queue (and the queue
keeps its earlier contents in order, the new frame appended). -/
theorem endpoint_request_ack (m : DeviceManager) (th : TransportHeader)
    (eh : E133Header) :
    (m.has_rdm_cb = false → ∀ ack, m.EndpointRequest th eh ack = some (m, [])) ∧
    (m.has_rdm_cb = true → m.EndpointRequest th eh false = some (m, [])) ∧
    (∀ ds q, m.has_rdm_cb = true →
      mapLookup m.device_map th.srcIp = some ds →
      ds.message_queue = some q →
      m.EndpointRequest th eh true =
        some ({ m with
                  device_map := mapUpdate m.device_map th.srcIp
                    ({ ds with message_queue := some ⟨q.messages ++ [⟨eh.sequence, eh.endpoint⟩]⟩ }) },
              [Effect.sendMessage ⟨eh.sequence, eh.endpoint⟩])) :=
  ⟨fun h ack => EndpointRequest_no_cb th eh ack h,
   fun h => EndpointRequest_no_ack th eh h,
   fun _ _ hr hl hq => EndpointRequest_send eh hr hl hq⟩

/-- Witness for C8: no handler registered in mgrNoCb; a registered handler
that declines in mgrDesignated; an acknowledged request on the same
manager enqueues the ack frame with sequence 42 and endpoint 3. -/
theorem endpoint_request_ack_witness :
    (mgrNoCb.has_rdm_cb = false ∧
      mgrNoCb.EndpointRequest { transport := TransportKind.tcp, srcIp := 1 }
        ⟨42, 3⟩ true = some (mgrNoCb, [])) ∧
    (mgrDesignated.has_rdm_cb = true ∧
      mgrDesignated.EndpointRequest
        { transport := TransportKind.tcp, srcIp := 1 } ⟨42, 3⟩ false =
        some (mgrDesignated, [])) ∧
    (mgrDesignated.has_rdm_cb = true ∧
      mapLookup mgrDesignated.device_map 1 = some dsDesignated ∧
      dsDesignated.message_queue = some ⟨[]⟩ ∧
      mgrDesignated.EndpointRequest
        { transport := TransportKind.tcp, srcIp := 1 } ⟨42, 3⟩ true =
        some ({ mgrDesignated with
                  device_map := mapUpdate mgrDesignated.device_map 1
                    ({ dsDesignated with message_queue := some ⟨[] ++ [⟨42, 3⟩]⟩ }) },
              [Effect.sendMessage ⟨42, 3⟩])) :=
  ⟨⟨by decide,
    (endpoint_request_ack mgrNoCb
      { transport := TransportKind.tcp, srcIp := 1 } ⟨42, 3⟩).1 (by decide)
      true⟩,
   ⟨by decide,
    (endpoint_request_ack mgrDesignated
      { transport := TransportKind.tcp, srcIp := 1 } ⟨42, 3⟩).2.1 (by decide)⟩,
   ⟨by decide, by decide, by decide,
    (endpoint_request_ack mgrDesignated
      { transport := TransportKind.tcp, srcIp := 1 } ⟨42, 3⟩).2.2 dsDesignated
      ⟨[]⟩ (by decide) (by decide) (by decide)⟩⟩

/-- C10: the acknowledgement path dereferences the record message queue
without a null check: with a handler registered and acknowledging, a
record found for the source but holding no queue crashes (none models the
null pointer dereference); with a queue present the enqueue is safe; and
under the record invariant a Designated record always has a queue, so the
Designated precondition makes the path safe. -/
theorem endpoint_request_queue_guard (m : DeviceManager)
    (th : TransportHeader) (eh : E133Header) (ds : DeviceState)
    (hlook : mapLookup m.device_map th.srcIp = some ds)
    (hr : m.has_rdm_cb = true) :
    (ds.message_queue = none → m.EndpointRequest th eh true = none) ∧
    (∀ q, ds.message_queue = some q →
      ∃ m2, m.EndpointRequest th eh true =
        some (m2, [Effect.sendMessage ⟨eh.sequence, eh.endpoint⟩])) ∧
    (DeviceState.Inv ds → ds.am_designated_controller = true →
      ds.message_queue.isSome = true) :=
  ⟨fun hq => EndpointRequest_no_queue eh hr hlook hq,
   fun _ hq => ⟨_, EndpointRequest_send eh hr hlook hq⟩,
   fun hinv hdc => (hinv.1 hdc).2.1⟩

/-- Witness for C10: the queue-less Connected/Unconfirmed record at
address 1 of mgrConnected crashes the ack path, while the Designated
record of mgrDesignated is safe and satisfies the invariant. -/
theorem endpoint_request_queue_guard_witness :
    (mapLookup mgrConnected.device_map 1 = some dsConnected ∧
      mgrConnected.has_rdm_cb = true ∧
      dsConnected.message_queue = none ∧
      mgrConnected.EndpointRequest
        { transport := TransportKind.tcp, srcIp := 1 } ⟨42, 3⟩ true = none) ∧
    (mapLookup mgrDesignated.device_map 1 = some dsDesignated ∧
      dsDesignated.message_queue = some ⟨[]⟩ ∧
      ∃ m2, mgrDesignated.EndpointRequest
        { transport := TransportKind.tcp, srcIp := 1 } ⟨42, 3⟩ true =
          some (m2, [Effect.sendMessage ⟨42, 3⟩])) ∧
    (DeviceState.Inv dsDesignated ∧
      dsDesignated.am_designated_controller = true ∧
      dsDesignated.message_queue.isSome = true) :=
  ⟨⟨by decide, by decide, by decide,
    (endpoint_request_queue_guard mgrConnected
      { transport := TransportKind.tcp, srcIp := 1 } ⟨42, 3⟩ dsConnected
      (by decide) (by decide)).1 (by decide)⟩,
   ⟨by decide, by decide,
    (endpoint_request_queue_guard mgrDesignated
      { transport := TransportKind.tcp, srcIp := 1 } ⟨42, 3⟩ dsDesignated
      (by decide) (by decide)).2.1 ⟨[]⟩ (by decide)⟩,
   ⟨⟨fun _ => ⟨rfl, rfl, rfl⟩, fun _ => rfl, fun _ => rfl, fun _ => rfl⟩,
    by decide,
    (endpoint_request_queue_guard mgrDesignated
      { transport := TransportKind.tcp, srcIp := 1 } ⟨42, 3⟩ dsDesignated
      (by decide) (by decide)).2.2
      ⟨fun _ => ⟨rfl, rfl, rfl⟩, fun _ => rfl, fun _ => rfl, fun _ => rfl⟩
      (by decide)⟩⟩

lemma count_acquire_replicate (n src : Nat) :
    (List.replicate n (Effect.heartbeatReceived src)).count
      (Effect.acquireCb src) = 0 := by
  induction n with
  | zero => rfl
  | succ n ih => simp [List.replicate_succ, List.count_cons, ih]

/-- C1: on a Connected/Unconfirmed record, a run of n + 1 inbound frames
promotes exactly once: the first frame sets the flag, fires the acquire
callback (when registered) and constructs queue and monitor; each of the
remaining n frames only feeds the monitor a received heartbeat.  The
acquire callback occurs exactly once in the whole trace (zero times when
not registered) and the record stays Designated with n forwarded
heartbeats. -/
theorem promotion_exactly_once (m : DeviceManager) (src : Nat)
    (ds : DeviceState) (n : Nat)
    (hlook : mapLookup m.device_map src = some ds)
    (hd : ds.am_designated_controller = false)
    (hhc : ds.health_checked_connection = none) :
    m.processFrames src (n + 1) =
      some ({ m with
                device_map := mapUpdate m.device_map src
                  ({ ds with
                      am_designated_controller := true
                      message_queue := some ⟨[]⟩
                      health_checked_connection := some ⟨n⟩ }) },
            (Effect.logInfo ::
               (if m.has_acquire_cb then [Effect.acquireCb src] else [])) ++
              List.replicate n (Effect.heartbeatReceived src)) ∧
    ((Effect.logInfo ::
        (if m.has_acquire_cb then [Effect.acquireCb src] else [])) ++
          List.replicate n (Effect.heartbeatReceived src)).count
        (Effect.acquireCb src) =
      (if m.has_acquire_cb then 1 else 0) := by
  constructor
  · have h1 := RLP_promote_ok hlook hd
    rw [hhc] at h1
    simp only [Option.isSome_none, Bool.false_eq_true, if_false,
      List.append_nil] at h1
    have h2 := processFrames_designated n
      ({ m with
          device_map := mapUpdate m.device_map src
            ({ ds with
                am_designated_controller := true
                message_queue := some ⟨[]⟩
                health_checked_connection := some ⟨0⟩ }) })
      src
      ({ ds with
          am_designated_controller := true
          message_queue := some ⟨[]⟩
          health_checked_connection := some ⟨0⟩ })
      ⟨0⟩
      (mapLookup_update_self _ hlook) rfl rfl
    rw [processFrames_succ n h1 h2]
    simp [mapUpdate_update, Nat.zero_add]
  · cases hacq : m.has_acquire_cb <;>
      simp [hacq, List.count_append, List.count_cons,
        count_acquire_replicate]

/-- Witness for C1: three frames on the Connected/Unconfirmed record at
address 1 promote on the first frame and forward two heartbeats. -/
theorem promotion_exactly_once_witness :
    (mapLookup mgrConnected.device_map 1 = some dsConnected ∧
      dsConnected.am_designated_controller = false ∧
      dsConnected.health_checked_connection = none) ∧
    (mgrConnected.processFrames 1 3 =
      some ({ mgrConnected with
                device_map := mapUpdate mgrConnected.device_map 1
                  ({ dsConnected with
                      am_designated_controller := true
                      message_queue := some ⟨[]⟩
                      health_checked_connection := some ⟨2⟩ }) },
            (Effect.logInfo ::
               (if mgrConnected.has_acquire_cb then [Effect.acquireCb 1]
                else [])) ++
              List.replicate 2 (Effect.heartbeatReceived 1)) ∧
    ((Effect.logInfo ::
        (if mgrConnected.has_acquire_cb then [Effect.acquireCb 1] else [])) ++
          List.replicate 2 (Effect.heartbeatReceived 1)).count
        (Effect.acquireCb 1) =
      (if mgrConnected.has_acquire_cb then 1 else 0)) :=
  ⟨⟨by decide, by decide, by decide⟩,
   promotion_exactly_once mgrConnected 1 dsConnected 2 (by decide)
     (by decide) (by decide)⟩

/-- C2: every manager state reachable from the constructor by handler
executions satisfies the lifecycle invariants: registry keys are unique
(so each address holds at most one record, whose single optional socket
field is its at most one live session), and in every record the queue,
monitor and decoder exist only while the session socket exists, the
designated flag implies a live session, and a Designated record owns both
queue and monitor. -/
theorem reachable_registry_invariants (m : DeviceManager)
    (h : Reachable m) : m.Inv := by
  induction h with
  | init =>
    refine ⟨List.nodup_nil, ?_⟩
    intro p hp
    simp [DeviceManager.init] at hp
  | step m e m2 effs hr hs ih => exact step_preserves_inv hs ih

/-- Witness for C2: the Designated single-record manager is reachable
(register callbacks, add device 1, connect with socket 7, receive the
first frame) and satisfies the invariant. -/
theorem reachable_registry_invariants_witness :
    Reachable mgrDesignated ∧ mgrDesignated.Inv := by
  have h1 : Reachable mgrStep1 :=
    Reachable.step _ _ _ _
      (Reachable.step _ _ _ _
        (Reachable.step _ _ _ _
          (Reachable.step _ _ _ _ Reachable.init
            (Step.setRdm DeviceManager.init true))
          (Step.setAcquire _ true))
        (Step.setRelease _ true))
      (Step.addDevice _ 1)
  have h2 : Reachable mgrStep2 :=
    Reachable.step _ _ _ _ h1 (Step.tcpConnect _ (PeerAddress.v4 1) 7)
  have heq : mgrStep2.RLPDataReceived
      { transport := TransportKind.tcp, srcIp := 1 } true =
      some (mgrDesignated, [Effect.logInfo, Effect.acquireCb 1]) := by decide
  have h3 : Reachable mgrDesignated :=
    Reachable.step _ _ _ _ h2
      (Step.rlpData _ _ _ _ _ (fun _ => by decide) heq)
  exact ⟨h3, reachable_registry_invariants _ h3⟩

end Ola
